import Mathlib

/-!
Verification of the DocumentHub filtering and ranking engine.

The definitions below are a shallow embedding of the core logic of
`src/index.tsx`: the locale lookup helpers `getTranslatedValue` and
`getTranslatedDocTitle`, the facet filter, and the relevance ranker that
together form the `filteredDocuments` memo.  JavaScript strings are
modelled by Lean `String` (a list of characters); `toLowerCase` is
modelled by per-character ASCII lowering (`Char.toLower`), which agrees
with JavaScript on the ASCII/CJK vocabulary used by this program;
`String.prototype.trim` is modelled by dropping leading and trailing
whitespace characters; `Array.prototype.sort`, which ECMAScript requires
to be stable, is modelled by a stable insertion sort on the comparator
key. `parseInt` is modelled after the ECMAScript algorithm for an
undefined radix: leading `StrWhiteSpaceChar` code points are skipped,
an optional sign is read, a `0x`/`0X` prefix switches to hexadecimal,
and the longest run of digits of the active radix is converted, with
`none` playing the role of `NaN`.  The opaque `file` attachment of a
document is never inspected by the engine and is not carried in the
record.
-/

/-- The two display locales of the application (`type Lang`). -/
inductive Lang where
  | en
  | zh
deriving DecidableEq, Repr

/-- The four categories of `translationsMap` in the source. -/
inductive TMCategory where
  | departments
  | ministries
  | docTypes
  | statuses
deriving DecidableEq, Repr

/-- The `translationsMap` dictionary of the source, as association lists. -/
def translationsMap : TMCategory → List (String × String)
  | .departments =>
    [("Executive Committee", "事工委員會"),
     ("Missions Department", "宣教部"),
     ("Nurture & Education Department", "培育部"),
     ("Pastoral Department (Adult Zone)", "牧養部成人牧區"),
     ("Pastoral Department (Youth Zone)", "牧養部青少年牧區"),
     ("Pastoral Department (Children Zone)", "牧養部兒童牧區"),
     ("Admin & Resources Department", "行政資源部"),
     ("Worship Department", "敬拜部")]
  | .ministries =>
    [("General", "一般"),
     ("Short-term Mission", "短宣"),
     ("English Class", "英文班"),
     ("Cha Kwo Ling Community", "茶果嶺社區"),
     ("Mommy\x27s Group", "媽咪小組"),
     ("Homework Class", "功課班"),
     ("Shared Space", "共享空間")]
  | .docTypes =>
    [("Meeting Minutes", "會議記錄"),
     ("Annual Plan", "年度計劃"),
     ("Project Plan", "項目計劃"),
     ("Budget Report", "預算報告"),
     ("Event Proposal", "活動提案")]
  | .statuses =>
    [("Draft", "草稿"),
     ("Final", "最終版"),
     ("For Review", "審核中")]

/-- The `titleTranslations` dictionary of the source. -/
def titleTranslations : List (String × String) :=
  [("Executive Committee Meeting Minutes", "事委會議事記錄"),
   ("Pastoral Dept. (Children) 2024 Annual Plan", "牧養部兒童牧區2024年度計劃"),
   ("Monthly Financial Report", "月會財務報表"),
   ("Short-term Mission Proposal", "茶果嶺區活動預算")]

/-- Forward dictionary access `m[v]` (first entry whose key is `v`). -/
def assocFind (m : List (String × String)) (v : String) : Option String :=
  match m with
  | [] => none
  | p :: rest => if p.1 == v then some p.2 else assocFind rest v

/-- `Object.entries(m).find(([_, val]) => val === v)`: first entry whose
value is `v`. -/
def revFind (m : List (String × String)) (v : String) : Option (String × String) :=
  match m with
  | [] => none
  | p :: rest => if p.2 == v then some p else revFind rest v

/-- `getTranslatedValue` from the source: in the `zh` locale a present
dictionary entry is used, otherwise the raw value is returned. -/
def getTranslatedValue (lang : Lang) (cat : TMCategory) (v : String) : String :=
  match lang, assocFind (translationsMap cat) v with
  | .zh, some t => t
  | _, _ => v

/-- `getTranslatedDocTitle` from the source: forward lookup in `zh`, and
otherwise a reverse search of the dictionary, whose result is used only
in the `en` locale. -/
def getTranslatedDocTitle (lang : Lang) (title : String) : String :=
  match lang, assocFind titleTranslations title with
  | .zh, some z => z
  | _, _ =>
    match lang, revFind titleTranslations title with
    | .en, some p => p.1
    | _, _ => title

/-- A catalogued document (the `Document` interface of the source; the
opaque `file` attachment is never inspected by the engine and is
omitted; `uploadDate` is the epoch-millisecond value of
`uploadDate.getTime()`). -/
structure Document where
  id : String
  title : String
  department : String
  ministry : String
  docType : String
  year : Int
  status : String
  uploadDate : Int
deriving DecidableEq, Repr

/-- The `Filters` interface of the source: the free-text search term and
one constraint per facet, where `"All"` is the wildcard. -/
structure Filters where
  searchTerm : String
  department : String
  ministry : String
  docType : String
  year : String
  status : String
deriving DecidableEq, Repr

/-- ASCII case folding of `String.prototype.toLowerCase`. -/
def lowerStr (s : String) : String :=
  ⟨s.data.map Char.toLower⟩

/-- `String.prototype.trim`: drop leading and trailing whitespace. -/
def trimStr (s : String) : String :=
  ⟨((s.data.dropWhile fun c => c.isWhitespace).reverse.dropWhile fun c =>
      c.isWhitespace).reverse⟩

/-- `pat` occurs at the very start of `s`. -/
def leadMatch : List Char → List Char → Bool
  | [], _ => true
  | _ :: _, [] => false
  | a :: as, b :: bs => a == b && leadMatch as bs

/-- `String.prototype.includes`: `pat` occurs somewhere in `s`. -/
def hasSubstr : List Char → List Char → Bool
  | [], pat => leadMatch pat []
  | c :: rest, pat => leadMatch pat (c :: rest) || hasSubstr rest pat

/-- String-level wrapper of `hasSubstr`. -/
def strIncludes (s pat : String) : Bool :=
  hasSubstr s.data pat.data

/-- Case-insensitive substring containment: `s` contains `pat` up to
ASCII case. -/
def containsCI (s pat : String) : Bool :=
  strIncludes (lowerStr s) (lowerStr pat)

/-- The ECMAScript `StrWhiteSpaceChar` set skipped by `parseInt`:
`WhiteSpace` (TAB, VT, FF, SP, NBSP, ZWNBSP and the Unicode `Zs`
space separators) together with the `LineTerminator` code points
(LF, CR, LS, PS). -/
def isJSWhitespace (c : Char) : Bool :=
  c.toNat = 0x9 || c.toNat = 0xA || c.toNat = 0xB || c.toNat = 0xC ||
  c.toNat = 0xD || c.toNat = 0x20 || c.toNat = 0xA0 || c.toNat = 0x1680 ||
  (0x2000 ≤ c.toNat && c.toNat ≤ 0x200A) || c.toNat = 0x2028 ||
  c.toNat = 0x2029 || c.toNat = 0x202F || c.toNat = 0x205F ||
  c.toNat = 0x3000 || c.toNat = 0xFEFF

/-- Hexadecimal digit characters. -/
def isHexDigit (c : Char) : Bool :=
  c.isDigit || ('a' ≤ c && c ≤ 'f') || ('A' ≤ c && c ≤ 'F')

/-- Numeric value of a (decimal or hexadecimal) digit character. -/
def hexVal (c : Char) : Nat :=
  if c.isDigit then c.toNat - 48
  else if 'a' ≤ c then c.toNat - 87
  else c.toNat - 55

/-- Value of a digit run in the given base. -/
def digitsValBase (b : Nat) (cs : List Char) : Nat :=
  cs.foldl (fun n c => b * n + hexVal c) 0

/-- Longest prefix of digits of the given base, or `none` (the `NaN`
case of `parseInt`) when it is empty. -/
def parseDigitsBase (b : Nat) (dig : Char → Bool) (cs : List Char) : Option Nat :=
  let ds := cs.takeWhile dig
  if ds.isEmpty then none else some (digitsValBase b ds)

/-- The unsigned part of `parseInt` with an undefined radix: a
`0x`/`0X` prefix selects hexadecimal, otherwise decimal. -/
def parseIntNoSign (cs : List Char) : Option Nat :=
  match cs with
  | '0' :: x :: rest =>
    if x == 'x' || x == 'X' then parseDigitsBase 16 isHexDigit rest
    else parseDigitsBase 10 (fun c => c.isDigit) cs
  | _ => parseDigitsBase 10 (fun c => c.isDigit) cs

/-- `parseInt` with an undefined radix, per the ECMAScript algorithm:
skip leading `StrWhiteSpaceChar` code points, read an optional sign,
autodetect a hexadecimal `0x` prefix, convert the longest digit run of
the active radix; `none` models `NaN`. -/
def parseIntJS (s : String) : Option Int :=
  match s.data.dropWhile isJSWhitespace with
  | '-' :: rest => (parseIntNoSign rest).map fun n => -(n : Int)
  | '+' :: rest => (parseIntNoSign rest).map fun n => (n : Int)
  | cs => (parseIntNoSign cs).map fun n => (n : Int)

/-- The facet predicate of `filteredDocuments`: every non-wildcard facet
must equal the document attribute, the year constraint through
`parseInt` (a `NaN` comparison is false). -/
def docPasses (f : Filters) (d : Document) : Bool :=
  (f.department == "All" || d.department == f.department) &&
  (f.ministry == "All" || d.ministry == f.ministry) &&
  (f.docType == "All" || d.docType == f.docType) &&
  (f.year == "All" ||
    (match parseIntJS f.year with
     | some n => d.year == n
     | none => false)) &&
  (f.status == "All" || d.status == f.status)

/-- The facet-filter stage (`documents.filter(doc => ...)`). -/
def facetFilter (docs : List Document) (f : Filters) : List Document :=
  docs.filter (docPasses f)

/-- The relevance score of one document: +3 for a title match, +2 for a
document-type match, +1 for a department match, each against the
lowercased (untrimmed) search term over the locale-rendered field. -/
def relevanceScore (lang : Lang) (q : String) (d : Document) : Nat :=
  let lq := lowerStr q
  let title := lowerStr (getTranslatedDocTitle lang d.title)
  let ty := lowerStr (getTranslatedValue lang TMCategory.docTypes d.docType)
  let dept := lowerStr (getTranslatedValue lang TMCategory.departments d.department)
  (if strIncludes title lq then 3 else 0) +
  (if strIncludes ty lq then 2 else 0) +
  (if strIncludes dept lq then 1 else 0)

/-- Stable insertion into a list kept in descending key order: the new
element goes in front of the first element whose key is not greater,
so earlier elements win ties. -/
def insertByKeyDesc {α β : Type} [LinearOrder β] (key : α → β) (x : α) :
    List α → List α
  | [] => [x]
  | y :: ys => if key y ≤ key x then x :: y :: ys else y :: insertByKeyDesc key x ys

/-- Stable sort by descending key, the model of the ECMAScript stable
`Array.prototype.sort` with comparator `(a, b) => key(b) - key(a)`. -/
def sortByKeyDesc {α β : Type} [LinearOrder β] (key : α → β) :
    List α → List α
  | [] => []
  | x :: xs => insertByKeyDesc key x (sortByKeyDesc key xs)

/-- The relevance branch of `filteredDocuments`: annotate with scores,
drop non-matches, stable-sort by descending score, forget the scores. -/
def rankRelevance (lang : Lang) (q : String) (l : List Document) :
    List Document :=
  (sortByKeyDesc (fun p => p.2)
    ((l.map fun d => (d, relevanceScore lang q d)).filter fun p =>
      decide (0 < p.2))).map Prod.fst

/-- The `filteredDocuments` memo of the source: facet filter, then the
recency sort when the trimmed search term is empty, otherwise the
relevance ranking. -/
def filteredDocuments (docs : List Document) (f : Filters) (lang : Lang) :
    List Document :=
  let filtered := facetFilter docs f
  if trimStr f.searchTerm = "" then
    sortByKeyDesc (fun d => d.uploadDate) filtered
  else
    rankRelevance lang f.searchTerm filtered

/-- First document of the end-to-end example of the specification. -/
def specDoc1 : Document :=
  { id := "1"
    title := "Executive Committee Meeting Minutes"
    department := "Executive Committee"
    ministry := "General"
    docType := "Meeting Minutes"
    year := 2023
    status := "Final"
    uploadDate := 0 }

/-- Second document of the end-to-end example of the specification. -/
def specDoc2 : Document :=
  { id := "2"
    title := "Monthly Financial Report"
    department := "Admin & Resources Department"
    ministry := "General"
    docType := "Budget Report"
    year := 2023
    status := "Final"
    uploadDate := 0 }

/-- Variant of `specDoc2` differing only in unscored attributes. -/
def specDoc2b : Document :=
  { specDoc2 with ministry := "English Class", status := "Draft", year := 1999 }

/-- All-wildcard criteria with search term `"report"`. -/
def filtersAllReport : Filters :=
  { searchTerm := "report", department := "All", ministry := "All"
    docType := "All", year := "All", status := "All" }

/-- All-wildcard criteria with search term `"report "` (trailing space). -/
def filtersAllReportSpace : Filters :=
  { filtersAllReport with searchTerm := "report " }

/-- All-wildcard criteria with an empty search term. -/
def filtersEmpty : Filters :=
  { filtersAllReport with searchTerm := "" }

/-- Criteria whose year constraint has a digit prefix and junk suffix. -/
def filtersYearJunk : Filters :=
  { filtersEmpty with year := "2023abc" }

/-- Criteria whose year constraint has no digit at all. -/
def filtersYearAbc : Filters :=
  { filtersEmpty with year := "abc" }

/-- Criteria whose year constraint is the hexadecimal string "0x7E7"
(value 2023). -/
def filtersYearHex : Filters :=
  { filtersEmpty with year := "0x7E7" }

theorem insertByKeyDesc_perm {α β : Type} [LinearOrder β] (key : α → β) (x : α)
    (l : List α) : List.Perm (insertByKeyDesc key x l) (x :: l) := by
  induction l with
  | nil => exact List.Perm.refl _
  | cons y ys ih =>
    rw [insertByKeyDesc]
    by_cases h : key y ≤ key x
    · rw [if_pos h]
    · rw [if_neg h]
      exact (List.Perm.cons y ih).trans (List.Perm.swap x y ys)

theorem sortByKeyDesc_perm {α β : Type} [LinearOrder β] (key : α → β)
    (l : List α) : List.Perm (sortByKeyDesc key l) l := by
  induction l with
  | nil => exact List.Perm.refl _
  | cons x xs ih =>
    rw [sortByKeyDesc]
    exact (insertByKeyDesc_perm key x _).trans (List.Perm.cons x ih)

theorem insertByKeyDesc_pairwise {α β : Type} [LinearOrder β] (key : α → β)
    (x : α) (l : List α) (h : l.Pairwise fun a b => key b ≤ key a) :
    (insertByKeyDesc key x l).Pairwise fun a b => key b ≤ key a := by
  induction l with
  | nil => simp [insertByKeyDesc]
  | cons y ys ih =>
    rw [List.pairwise_cons] at h
    rw [insertByKeyDesc]
    by_cases hxy : key y ≤ key x
    · rw [if_pos hxy, List.pairwise_cons]
      refine ⟨fun z hz => ?_, List.pairwise_cons.mpr h⟩
      rcases List.mem_cons.mp hz with hz | hz
      · exact hz ▸ hxy
      · exact le_trans (h.1 z hz) hxy
    · rw [if_neg hxy, List.pairwise_cons]
      refine ⟨fun z hz => ?_, ih h.2⟩
      rcases List.mem_cons.mp ((insertByKeyDesc_perm key x ys).mem_iff.mp hz) with hz | hz
      · exact hz ▸ le_of_lt (lt_of_not_le hxy)
      · exact h.1 z hz

theorem sortByKeyDesc_pairwise {α β : Type} [LinearOrder β] (key : α → β)
    (l : List α) :
    (sortByKeyDesc key l).Pairwise fun a b => key b ≤ key a := by
  induction l with
  | nil => simp [sortByKeyDesc]
  | cons x xs ih =>
    rw [sortByKeyDesc]
    exact insertByKeyDesc_pairwise key x _ ih

theorem insertByKeyDesc_filter_key {α β : Type} [LinearOrder β] (key : α → β)
    (s : β) (x : α) (l : List α) :
    (insertByKeyDesc key x l).filter (fun z => decide (key z = s))
      = if key x = s then x :: l.filter (fun z => decide (key z = s))
        else l.filter (fun z => decide (key z = s)) := by
  induction l with
  | nil =>
    by_cases hx : key x = s
    · simp [insertByKeyDesc, List.filter, hx]
    · simp [insertByKeyDesc, List.filter, hx]
  | cons y ys ih =>
    rw [insertByKeyDesc]
    by_cases hxy : key y ≤ key x
    · rw [if_pos hxy]
      by_cases hx : key x = s
      · simp [List.filter_cons, hx]
      · simp [List.filter_cons, hx]
    · rw [if_neg hxy]
      by_cases hx : key x = s
      · have hy : ¬ key y = s := fun hy =>
          hxy (le_of_eq (hy.trans hx.symm))
        rw [if_pos hx, List.filter_cons, List.filter_cons]
        simp [hy, ih, hx]
      · rw [if_neg hx, List.filter_cons, List.filter_cons]
        by_cases hy : key y = s
        · simp [hy, ih, hx]
        · simp [hy, ih, hx]

theorem sortByKeyDesc_filter_key {α β : Type} [LinearOrder β] (key : α → β)
    (s : β) (l : List α) :
    (sortByKeyDesc key l).filter (fun z => decide (key z = s))
      = l.filter (fun z => decide (key z = s)) := by
  induction l with
  | nil => rfl
  | cons x xs ih =>
    rw [sortByKeyDesc, insertByKeyDesc_filter_key, List.filter_cons]
    by_cases hx : key x = s
    · rw [if_pos hx, ih]
      simp [hx]
    · rw [if_neg hx, ih]
      simp [hx]

theorem filterMapComm {α γ : Type} (l : List γ) (f : γ → α) (q : α → Bool) :
    (l.map f).filter q = (l.filter fun x => q (f x)).map f := by
  induction l with
  | nil => rfl
  | cons x xs ih =>
    rw [List.map_cons, List.filter_cons, List.filter_cons]
    by_cases hx : q (f x) = true
    · simp [hx, ih]
    · simp [Bool.of_not_eq_true hx, ih]

theorem rankPairs_snd_eq (lang : Lang) (q : String) (l : List Document)
    (p : Document × Nat)
    (hp : p ∈ sortByKeyDesc (fun p : Document × Nat => p.2)
      ((l.map fun d => (d, relevanceScore lang q d)).filter fun p =>
        decide (0 < p.2))) :
    p.2 = relevanceScore lang q p.1 ∧ 0 < p.2 ∧ p.1 ∈ l := by
  have h1 := List.mem_filter.mp ((sortByKeyDesc_perm _ _).mem_iff.mp hp)
  obtain ⟨d0, hd0, rfl⟩ := List.mem_map.mp h1.1
  exact ⟨rfl, by simpa using h1.2, hd0⟩

theorem rankRelevance_mem (lang : Lang) (q : String) (l : List Document)
    (d : Document) (hd : d ∈ rankRelevance lang q l) :
    d ∈ l ∧ 0 < relevanceScore lang q d := by
  unfold rankRelevance at hd
  obtain ⟨p, hp, rfl⟩ := List.mem_map.mp hd
  have h := rankPairs_snd_eq lang q l p hp
  exact ⟨h.2.2, h.1 ▸ h.2.1⟩

theorem rankRelevance_mem_of (lang : Lang) (q : String) (l : List Document)
    (d : Document) (hd : d ∈ l) (hs : 0 < relevanceScore lang q d) :
    d ∈ rankRelevance lang q l := by
  unfold rankRelevance
  refine List.mem_map.mpr ⟨(d, relevanceScore lang q d), ?_, rfl⟩
  refine (sortByKeyDesc_perm _ _).mem_iff.mpr (List.mem_filter.mpr ⟨?_, ?_⟩)
  · exact List.mem_map_of_mem _ hd
  · simpa using hs

theorem rankRelevance_pairwise (lang : Lang) (q : String) (l : List Document) :
    (rankRelevance lang q l).Pairwise
      fun a b => relevanceScore lang q b ≤ relevanceScore lang q a := by
  unfold rankRelevance
  rw [List.pairwise_map]
  have hp := sortByKeyDesc_pairwise (fun p : Document × Nat => p.2)
    ((l.map fun d => (d, relevanceScore lang q d)).filter fun p =>
      decide (0 < p.2))
  refine hp.imp_of_mem ?_
  intro a b ha hb hr
  rw [← (rankPairs_snd_eq lang q l a ha).1, ← (rankPairs_snd_eq lang q l b hb).1]
  exact hr

theorem rankRelevance_filter_score (lang : Lang) (q : String)
    (l : List Document) (s : Nat) (hs : 0 < s) :
    (rankRelevance lang q l).filter (fun d => decide (relevanceScore lang q d = s))
      = l.filter fun d => decide (relevanceScore lang q d = s) := by
  unfold rankRelevance
  rw [filterMapComm]
  rw [List.filter_congr fun p hp =>
    (show decide (relevanceScore lang q p.1 = s) = decide (p.2 = s) by
      rw [(rankPairs_snd_eq lang q l p hp).1])]
  rw [sortByKeyDesc_filter_key, List.filter_filter]
  rw [List.filter_congr fun p _ =>
    (show (decide (p.2 = s) && decide (0 < p.2)) = decide (p.2 = s) by
      by_cases h : p.2 = s
      · simp [h, hs]
      · simp [h])]
  rw [filterMapComm, List.map_map]
  rw [show (Prod.fst ∘ fun d : Document => (d, relevanceScore lang q d)) = id from rfl]
  rw [List.map_id]

theorem filteredDocuments_relevanceMode (docs : List Document) (f : Filters)
    (lang : Lang) (h : ¬ trimStr f.searchTerm = "") :
    filteredDocuments docs f lang
      = rankRelevance lang f.searchTerm (facetFilter docs f) := by
  simp only [filteredDocuments, if_neg h]

theorem filteredDocuments_recencyMode (docs : List Document) (f : Filters)
    (lang : Lang) (h : trimStr f.searchTerm = "") :
    filteredDocuments docs f lang
      = sortByKeyDesc (fun d => d.uploadDate) (facetFilter docs f) := by
  simp only [filteredDocuments, if_pos h]

theorem score_shape (b1 b2 b3 : Bool) :
    ((if b1 then 3 else 0) + (if b2 then 2 else 0) + (if b3 then 1 else 0) : Nat)
      = 3 * (if b1 then 1 else 0) + 2 * (if b2 then 1 else 0)
        + 1 * (if b3 then 1 else 0) := by
  cases b1 <;> cases b2 <;> cases b3 <;> rfl

/-- C2: for a search query that is non-empty after trimming, the
relevance score is exactly 3 times the indicator of a case-insensitive
title match, plus 2 times the indicator of a document-type-label match,
plus 1 times that of a department-label match; ministry, year and
status never influence the score; score-0 documents are absent from the
relevance-mode output and exactly the positively scored facet-filtered
documents appear, ordered by descending score; in particular matching
all three fields scores 6 and matching only the title scores 3. -/
theorem relevance_score_spec (lang : Lang) (q : String) (h : trimStr q ≠ "") :
    (∀ d : Document, relevanceScore lang q d =
        3 * (if containsCI (getTranslatedDocTitle lang d.title) q then 1 else 0)
      + 2 * (if containsCI (getTranslatedValue lang TMCategory.docTypes d.docType) q then 1 else 0)
      + 1 * (if containsCI (getTranslatedValue lang TMCategory.departments d.department) q then 1 else 0)) ∧
    (∀ d e : Document, d.title = e.title → d.docType = e.docType →
      d.department = e.department →
      relevanceScore lang q d = relevanceScore lang q e) ∧
    (∀ (docs : List Document) (f : Filters), f.searchTerm = q →
      (∀ d ∈ filteredDocuments docs f lang, relevanceScore lang q d ≠ 0) ∧
      (∀ d ∈ facetFilter docs f, 0 < relevanceScore lang q d →
        d ∈ filteredDocuments docs f lang) ∧
      (filteredDocuments docs f lang).Pairwise
        (fun a b => relevanceScore lang q b ≤ relevanceScore lang q a)) ∧
    (∀ d : Document,
      (containsCI (getTranslatedDocTitle lang d.title) q = true →
       containsCI (getTranslatedValue lang TMCategory.docTypes d.docType) q = true →
       containsCI (getTranslatedValue lang TMCategory.departments d.department) q = true →
       relevanceScore lang q d = 6) ∧
      (containsCI (getTranslatedDocTitle lang d.title) q = true →
       containsCI (getTranslatedValue lang TMCategory.docTypes d.docType) q = false →
       containsCI (getTranslatedValue lang TMCategory.departments d.department) q = false →
       relevanceScore lang q d = 3)) := by
  refine ⟨?_, ?_, ?_, ?_⟩
  · intro d
    simp only [relevanceScore, containsCI]
    exact score_shape _ _ _
  · intro d e h1 h2 h3
    simp only [relevanceScore, h1, h2, h3]
  · intro docs f hf
    subst hf
    refine ⟨?_, ?_, ?_⟩
    · intro d hd
      rw [filteredDocuments_relevanceMode docs f lang h] at hd
      exact Nat.pos_iff_ne_zero.mp
        (rankRelevance_mem lang f.searchTerm (facetFilter docs f) d hd).2
    · intro d hd hs
      rw [filteredDocuments_relevanceMode docs f lang h]
      exact rankRelevance_mem_of lang f.searchTerm (facetFilter docs f) d hd hs
    · rw [filteredDocuments_relevanceMode docs f lang h]
      exact rankRelevance_pairwise lang f.searchTerm (facetFilter docs f)
  · intro d
    constructor
    · intro h1 h2 h3
      simp only [containsCI] at h1 h2 h3
      simp [relevanceScore, h1, h2, h3]
    · intro h1 h2 h3
      simp only [containsCI] at h1 h2 h3
      simp [relevanceScore, h1, h2, h3]

/-- Witness for C2: the score of the spec example's second document is
unchanged under a change of its ministry, status and year. -/
theorem relevance_score_spec_witness :
    relevanceScore Lang.en "report" specDoc2
      = relevanceScore Lang.en "report" specDoc2b :=
  ((relevance_score_spec Lang.en "report" (by decide)).2.1) specDoc2 specDoc2b
    rfl rfl rfl

/-- C1 counterexample: on the spec's end-to-end example the pipeline
does return exactly the second document, but its relevance score is not
3 — the document-type label "Budget Report" also contains "report". -/
theorem spec_example_ce :
    filteredDocuments [specDoc1, specDoc2] filtersAllReport Lang.en = [specDoc2] ∧
    relevanceScore Lang.en "report" specDoc2 ≠ 3 ∧
    relevanceScore Lang.en "report" specDoc1 = 0 :=
  ⟨by decide, by decide, by decide⟩

/-- C1 amended: the pipeline on the spec example returns exactly the
second document, with relevance score 5 (3 for the title match plus 2
for the type-label match); the first document is excluded with score
0. -/
theorem spec_example_amended :
    filteredDocuments [specDoc1, specDoc2] filtersAllReport Lang.en = [specDoc2] ∧
    relevanceScore Lang.en "report" specDoc2 = 5 ∧
    relevanceScore Lang.en "report" specDoc1 = 0 :=
  ⟨by decide, by decide, by decide⟩

/-- C5 counterexample: the query "report " (trailing space) is
non-empty after trimming, yet scores 0 against the spec example's
second document while its trimmed form scores 5, so scoring is not
identical to that of the trimmed query. -/
theorem query_untrimmed_ce :
    trimStr "report " = "report" ∧
    relevanceScore Lang.en "report " specDoc2 = 0 ∧
    relevanceScore Lang.en "report" specDoc2 = 5 ∧
    filteredDocuments [specDoc1, specDoc2] filtersAllReportSpace Lang.en = [] :=
  ⟨by decide, by decide, by decide, by decide⟩

/-- C5 amended: the substring tested against each locale-rendered field
is the search query lowercased but NOT trimmed of surrounding
whitespace (trimming is used only for mode selection); consequently
scoring agrees with the trimmed query exactly when trimming leaves the
query unchanged. -/
theorem score_untrimmed_query (lang : Lang) (q : String) (d : Document) :
    (relevanceScore lang q d =
        3 * (if strIncludes (lowerStr (getTranslatedDocTitle lang d.title)) (lowerStr q) then 1 else 0)
      + 2 * (if strIncludes (lowerStr (getTranslatedValue lang TMCategory.docTypes d.docType)) (lowerStr q) then 1 else 0)
      + 1 * (if strIncludes (lowerStr (getTranslatedValue lang TMCategory.departments d.department)) (lowerStr q) then 1 else 0)) ∧
    (trimStr q = q → relevanceScore lang q d = relevanceScore lang (trimStr q) d) := by
  constructor
  · simp only [relevanceScore]
    exact score_shape _ _ _
  · intro hq
    rw [hq]

/-- Witness for C5's amended statement at a concrete already-trimmed
query. -/
theorem score_untrimmed_query_witness :
    relevanceScore Lang.en "report" specDoc2
      = relevanceScore Lang.en (trimStr "report") specDoc2 :=
  (score_untrimmed_query Lang.en "report" specDoc2).2 (by decide)

/-- C3: a document appears in the facet filter's output iff for each of
the five facets whose constraint is not the wildcard "All" the raw
attribute equals the constraint exactly (the year constraint through
its integer parse), and the output is a sublist of the input, hence
preserves its relative order. -/
theorem facet_filter_iff (docs : List Document) (f : Filters) :
    (∀ d : Document, d ∈ facetFilter docs f ↔
      d ∈ docs ∧
      (f.department = "All" ∨ d.department = f.department) ∧
      (f.ministry = "All" ∨ d.ministry = f.ministry) ∧
      (f.docType = "All" ∨ d.docType = f.docType) ∧
      (f.year = "All" ∨ parseIntJS f.year = some d.year) ∧
      (f.status = "All" ∨ d.status = f.status)) ∧
    (facetFilter docs f).Sublist docs := by
  refine ⟨?_, List.filter_sublist docs⟩
  intro d
  rw [facetFilter, List.mem_filter]
  refine and_congr_right fun _ => ?_
  cases hp : parseIntJS f.year with
  | none =>
    simp [docPasses, Bool.and_eq_true, Bool.or_eq_true, beq_iff_eq, hp,
      and_assoc]
  | some n =>
    simp only [docPasses, Bool.and_eq_true, Bool.or_eq_true, beq_iff_eq, hp,
      Option.some.injEq]
    simp [@eq_comm Int d.year n, and_assoc]

/-- C4: the mode of the pipeline is decided exactly by whether the
trimmed search text is empty. With an empty trimmed search text the
output is a permutation of the facet-filtered documents ordered by
descending creation timestamp, and it does not depend on which
whitespace-only search text was supplied; with a non-empty trimmed
search text every output document carries a positive relevance
score. -/
theorem pipeline_mode (docs : List Document) (f : Filters) (lang : Lang) :
    (trimStr f.searchTerm = "" →
      List.Perm (filteredDocuments docs f lang) (facetFilter docs f) ∧
      (filteredDocuments docs f lang).Pairwise
        (fun a b => b.uploadDate ≤ a.uploadDate) ∧
      (∀ q2 : String, trimStr q2 = "" →
        filteredDocuments docs { f with searchTerm := q2 } lang
          = filteredDocuments docs f lang)) ∧
    (trimStr f.searchTerm ≠ "" →
      ∀ d ∈ filteredDocuments docs f lang,
        0 < relevanceScore lang f.searchTerm d) := by
  constructor
  · intro h
    rw [filteredDocuments_recencyMode docs f lang h]
    refine ⟨sortByKeyDesc_perm _ _, sortByKeyDesc_pairwise _ _, ?_⟩
    intro q2 hq2
    rw [filteredDocuments_recencyMode docs { f with searchTerm := q2 } lang hq2]
    rfl
  · intro h d hd
    rw [filteredDocuments_relevanceMode docs f lang h] at hd
    exact (rankRelevance_mem lang f.searchTerm (facetFilter docs f) d hd).2

/-- Witness for C4 in recency mode at the spec example. -/
theorem pipeline_mode_witness :
    List.Perm (filteredDocuments [specDoc1, specDoc2] filtersEmpty Lang.en)
      (facetFilter [specDoc1, specDoc2] filtersEmpty) :=
  ((pipeline_mode [specDoc1, specDoc2] filtersEmpty Lang.en).1 (by decide)).1

/-- C6: both sorts are stable with respect to the filtered input order:
for every relevance score, the output documents of that score are
exactly the facet-filtered documents of that score in their original
order (so ties are not reordered by recency or anything else), and in
recency mode, documents with equal timestamps likewise keep their
input order. -/
theorem sort_stability (docs : List Document) (f : Filters) (lang : Lang)
    (s : Nat) (t : Int) :
    (trimStr f.searchTerm ≠ "" → 0 < s →
      (filteredDocuments docs f lang).filter
          (fun d => decide (relevanceScore lang f.searchTerm d = s))
        = (facetFilter docs f).filter
          (fun d => decide (relevanceScore lang f.searchTerm d = s))) ∧
    (trimStr f.searchTerm = "" →
      (filteredDocuments docs f lang).filter (fun d => decide (d.uploadDate = t))
        = (facetFilter docs f).filter (fun d => decide (d.uploadDate = t))) := by
  constructor
  · intro h hs
    rw [filteredDocuments_relevanceMode docs f lang h]
    exact rankRelevance_filter_score lang f.searchTerm (facetFilter docs f) s hs
  · intro h
    rw [filteredDocuments_recencyMode docs f lang h]
    exact sortByKeyDesc_filter_key (fun d : Document => d.uploadDate) t _

/-- Witness for C6 at the spec example in relevance mode with score
5. -/
theorem sort_stability_witness :
    (filteredDocuments [specDoc1, specDoc2] filtersAllReport Lang.en).filter
        (fun d => decide (relevanceScore Lang.en filtersAllReport.searchTerm d = 5))
      = (facetFilter [specDoc1, specDoc2] filtersAllReport).filter
        (fun d => decide (relevanceScore Lang.en filtersAllReport.searchTerm d = 5)) :=
  (sort_stability [specDoc1, specDoc2] filtersAllReport Lang.en 5 0).1
    (by decide) (by decide)

/-- C7: when a locale has no dictionary entry for a raw value, the
rendered value is the raw value itself: category lookups fall back to
identity whenever the dictionary misses (and the `en` locale never
consults the category dictionaries), and a title with neither a forward
nor a reverse dictionary entry renders as itself in every locale;
lookup misses are never errors. -/
theorem translation_identity_fallback :
    (∀ (lang : Lang) (cat : TMCategory) (v : String),
      assocFind (translationsMap cat) v = none →
      getTranslatedValue lang cat v = v) ∧
    (∀ (cat : TMCategory) (v : String), getTranslatedValue Lang.en cat v = v) ∧
    (∀ (lang : Lang) (t : String),
      assocFind titleTranslations t = none →
      revFind titleTranslations t = none →
      getTranslatedDocTitle lang t = t) := by
  refine ⟨?_, ?_, ?_⟩
  · intro lang cat v h
    unfold getTranslatedValue
    rw [h]
    cases lang <;> rfl
  · intro cat v
    unfold getTranslatedValue
    cases hx : assocFind (translationsMap cat) v <;> rfl
  · intro lang t h1 h2
    unfold getTranslatedDocTitle
    rw [h1, h2]
    cases lang <;> rfl

/-- Witness for C7 at a value outside the dictionary. -/
theorem translation_identity_fallback_witness :
    getTranslatedValue Lang.zh TMCategory.departments "Unknown" = "Unknown" :=
  translation_identity_fallback.1 Lang.zh TMCategory.departments "Unknown"
    (by decide)

/-- C8 counterexample: the year constraint "2023abc" is not numeric,
yet the filter neither rejects nor treats it as matching no document:
`parseInt` silently normalizes it to 2023 and the 2023 document
passes. -/
theorem year_normalized_ce :
    facetFilter [specDoc1] filtersYearJunk = [specDoc1] ∧
    parseIntJS "2023abc" = some 2023 ∧
    filtersYearJunk.year = "2023abc" :=
  ⟨by decide, by decide, rfl⟩

/-- C8 amended: the engine never rejects the call; a non-wildcard year
constraint is silently normalized through `parseInt` — when the parse
is `NaN` it matches no document, and otherwise it matches exactly the
documents whose year equals the parsed integer, so both "2023abc" and
the hexadecimal "0x7E7" match the 2023 document. -/
theorem year_constraint_behavior :
    (∀ (f : Filters) (d : Document), f.year ≠ "All" →
      parseIntJS f.year = none → docPasses f d = false) ∧
    (∀ (f : Filters) (d : Document) (n : Int), f.year ≠ "All" →
      parseIntJS f.year = some n → d.year ≠ n → docPasses f d = false) ∧
    facetFilter [specDoc1] filtersYearJunk = [specDoc1] ∧
    facetFilter [specDoc1] filtersYearHex = [specDoc1] ∧
    parseIntJS "0x7E7" = some 2023 := by
  refine ⟨?_, ?_, by decide, by decide, by decide⟩
  · intro f d h1 h2
    have hy : (f.year == "All") = false := beq_eq_false_iff_ne.mpr h1
    simp [docPasses, hy, h2]
  · intro f d n h1 h2 h3
    have hy : (f.year == "All") = false := beq_eq_false_iff_ne.mpr h1
    have hn : (d.year == n) = false := beq_eq_false_iff_ne.mpr h3
    simp [docPasses, hy, h2, hn]

/-- Witness for C8's amended statement: the all-digit-free constraint
"abc" matches nothing. -/
theorem year_constraint_behavior_witness :
    docPasses filtersYearAbc specDoc1 = false :=
  year_constraint_behavior.1 filtersYearAbc specDoc1 (by decide) (by decide)

/-- C9: filtering with all-wildcard criteria returns exactly the input
collection. -/
theorem wildcard_identity (docs : List Document) (f : Filters)
    (h1 : f.department = "All") (h2 : f.ministry = "All")
    (h3 : f.docType = "All") (h4 : f.year = "All") (h5 : f.status = "All") :
    facetFilter docs f = docs := by
  unfold facetFilter
  apply List.filter_eq_self.mpr
  intro d _
  simp [docPasses, h1, h2, h3, h4, h5]

/-- Witness for C9 at the spec example's all-wildcard criteria. -/
theorem wildcard_identity_witness :
    facetFilter [specDoc1, specDoc2] filtersAllReport = [specDoc1, specDoc2] :=
  wildcard_identity [specDoc1, specDoc2] filtersAllReport rfl rfl rfl rfl rfl

/-- C10 counterexample: in the English locale the stored title
"Executive Committee Meeting Minutes" appears on the left side of the
title dictionary and is still returned unchanged, contradicting the
claim that the stored title is returned unchanged only when it appears
on neither side of the dictionary. -/
theorem title_unchanged_left_key_ce :
    getTranslatedDocTitle Lang.en "Executive Committee Meeting Minutes"
      = "Executive Committee Meeting Minutes" ∧
    assocFind titleTranslations "Executive Committee Meeting Minutes" ≠ none :=
  ⟨by decide, by decide⟩

/-- C10 amended: title rendering is bidirectional. In the English
locale, a stored title equal to one of the Chinese dictionary values
renders as the matching English key, and renders as itself exactly when
it matches no Chinese value — including when it is itself an English
key; in the Chinese locale the forward entry is used when present and
the stored title is returned unchanged otherwise. -/
theorem title_reverse_lookup :
    (∀ (t : String) (p : String × String),
      revFind titleTranslations t = some p →
      getTranslatedDocTitle Lang.en t = p.1) ∧
    (∀ t : String, revFind titleTranslations t = none →
      getTranslatedDocTitle Lang.en t = t) ∧
    (∀ (t z : String), assocFind titleTranslations t = some z →
      getTranslatedDocTitle Lang.zh t = z) ∧
    (∀ t : String, assocFind titleTranslations t = none →
      getTranslatedDocTitle Lang.zh t = t) := by
  refine ⟨?_, ?_, ?_, ?_⟩
  · intro t p h
    unfold getTranslatedDocTitle
    rw [h]
  · intro t h
    unfold getTranslatedDocTitle
    rw [h]
  · intro t z h
    unfold getTranslatedDocTitle
    rw [h]
  · intro t h1
    cases hx : revFind titleTranslations t with
    | none =>
      unfold getTranslatedDocTitle
      rw [h1, hx]
    | some p =>
      unfold getTranslatedDocTitle
      rw [h1, hx]

/-- Witness for C10's amended statement: a stored Chinese title renders
in English as the matching dictionary key. -/
theorem title_reverse_lookup_witness :
    getTranslatedDocTitle Lang.en "事委會議事記錄"
      = "Executive Committee Meeting Minutes" :=
  title_reverse_lookup.1 "事委會議事記錄"
    ("Executive Committee Meeting Minutes", "事委會議事記錄") (by decide)
